import Mathlib

/-!
Shallow embedding of `homework.py`: a workout-statistics calculator with
three activity variants (Running, SportsWalking, Swimming), a dispatcher
`read_package` from a 3-letter type code plus an argument list, and an
`InfoMessage` summary formatter.

Python floats are modelled by `ℚ`; every arithmetic step of the source is
exact at the inputs the claims mention, so the rational model agrees with
the float run at each of them.  Operations that can raise in Python
(`ZeroDivisionError` from `/` or `//`, dispatch failures) return `Option`
or `Except`.
-/

/-- `M_IN_KM` class attribute of `Training` (metres per kilometre). -/
def M_IN_KM : ℚ := 1000

/-- `M_IN_HOURS` class attribute of `Training` (minutes per hour). -/
def M_IN_HOURS : ℚ := 60

/-- `Running.COEFF_FOR_RUN_1`. -/
def COEFF_FOR_RUN_1 : ℚ := 18

/-- `Running.COEFF_FOR_RUN_2`. -/
def COEFF_FOR_RUN_2 : ℚ := 20

/-- `SportsWalking.COEFF_FOR_WALK_1`. -/
def COEFF_FOR_WALK_1 : ℚ := 0.035

/-- `SportsWalking.COEFF_FOR_WALK_2`. -/
def COEFF_FOR_WALK_2 : ℚ := 0.029

/-- `Swimming.COEFF_FOR_SWIM_1`. -/
def COEFF_FOR_SWIM_1 : ℚ := 1.1

/-- `Swimming.COEFF_FOR_SWIM_2`. -/
def COEFF_FOR_SWIM_2 : ℚ := 2

/-- Python float floor division `a // b`: floor of the quotient, raising
`ZeroDivisionError` (here `none`) when the divisor is zero. -/
def ffloorDiv (a b : ℚ) : Option ℚ :=
  if b = 0 then none else some ((⌊a / b⌋ : ℤ) : ℚ)

/-- The closed class hierarchy rooted at `Training`, as a sum type.  Each
constructor stores the fields set by the corresponding `__init__`. -/
inductive Training : Type
  | running (action duration weight : ℚ)
  | sportsWalking (action duration weight height : ℚ)
  | swimming (action duration weight length_pool count_pool : ℚ)
deriving DecidableEq

/-- `self.action`. -/
def Training.action : Training → ℚ
  | .running a _ _ => a
  | .sportsWalking a _ _ _ => a
  | .swimming a _ _ _ _ => a

/-- `self.duration`. -/
def Training.duration : Training → ℚ
  | .running _ d _ => d
  | .sportsWalking _ d _ _ => d
  | .swimming _ d _ _ _ => d

/-- `self.weight`. -/
def Training.weight : Training → ℚ
  | .running _ _ w => w
  | .sportsWalking _ _ w _ => w
  | .swimming _ _ w _ _ => w

/-- `self.LEN_STEP`: 0.65 on the base class (inherited by `Running` and
`SportsWalking`), overridden to 1.38 by `Swimming`. -/
def Training.LEN_STEP : Training → ℚ
  | .swimming _ _ _ _ _ => 1.38
  | _ => 0.65

/-- `self.__class__.__name__`. -/
def Training.className : Training → String
  | .running _ _ _ => "Running"
  | .sportsWalking _ _ _ _ => "SportsWalking"
  | .swimming _ _ _ _ _ => "Swimming"

/-- `Training.get_distance`: `self.action * self.LEN_STEP / self.M_IN_KM`.
No variant overrides it. -/
def Training.get_distance (t : Training) : ℚ :=
  t.action * t.LEN_STEP / M_IN_KM

/-- `get_mean_speed`, with dynamic dispatch: the base method returns
`self.get_distance() / self.duration`; `Swimming` overrides it with
`self.length_pool * self.count_pool / self.M_IN_KM / self.duration`.
Division by a zero duration raises in Python, hence `none`. -/
def Training.get_mean_speed (t : Training) : Option ℚ :=
  match t with
  | .swimming _ d _ lp cp =>
      if d = 0 then none else some (lp * cp / M_IN_KM / d)
  | _ =>
      if t.duration = 0 then none else some (t.get_distance / t.duration)

/-- `get_spent_calories`, with dynamic dispatch to the three overrides.
Each override first takes `self.get_mean_speed()`, which can raise;
`SportsWalking` additionally floor-divides by `self.height`, which raises
when the height is zero. -/
def Training.get_spent_calories (t : Training) : Option ℚ :=
  match t with
  | .running _ d w =>
      t.get_mean_speed.map fun v =>
        (COEFF_FOR_RUN_1 * v - COEFF_FOR_RUN_2) * w / M_IN_KM * (d * M_IN_HOURS)
  | .sportsWalking _ d w h =>
      t.get_mean_speed.bind fun v =>
        (ffloorDiv (v ^ 2) h).map fun q =>
          (COEFF_FOR_WALK_1 * w + q * COEFF_FOR_WALK_2 * w) * (d * M_IN_HOURS)
  | .swimming _ _ w _ _ =>
      t.get_mean_speed.map fun v =>
        (v + COEFF_FOR_SWIM_1) * COEFF_FOR_SWIM_2 * w

/-- The `InfoMessage` dataclass. -/
structure InfoMessage : Type where
  training_type : String
  duration : ℚ
  distance : ℚ
  speed : ℚ
  calories : ℚ
deriving DecidableEq

/-- Python `format(x, '.3f')` on our rational model of a float: round the
value to three decimal places (ties to even, as CPython's float formatting
rounds the exact binary value) and print it with a dot separator and
exactly three digits after the point. -/
def roundHalfEven (x : ℚ) : ℤ :=
  let f : ℤ := ⌊x⌋
  let r : ℚ := x - (f : ℚ)
  if r < 1 / 2 then f
  else if 1 / 2 < r then f + 1
  else if f % 2 = 0 then f else f + 1

/-- Render `x` with exactly three decimal places (`'%.3f'`). -/
def formatFixed3 (x : ℚ) : String :=
  let n : ℤ := roundHalfEven (x * 1000)
  let sign : String := if n < 0 then "-" else ""
  let m : ℕ := n.natAbs
  let ip : ℕ := m / 1000
  let fp : ℕ := m % 1000
  let pad : String := if fp < 10 then "00" else if fp < 100 then "0" else ""
  sign ++ toString ip ++ "." ++ pad ++ toString fp

/-- `InfoMessage.get_message`: the source's f-string, with its Russian
labels, `'; '` separators, three-decimal numeric fields and final `'.'`. -/
def InfoMessage.get_message (m : InfoMessage) : String :=
  "Тип тренировки: " ++ m.training_type ++
  "; Длительность: " ++ formatFixed3 m.duration ++
  " ч.; Дистанция: " ++ formatFixed3 m.distance ++
  " км; Ср. скорость: " ++ formatFixed3 m.speed ++
  " км/ч; Потрачено ккал: " ++ formatFixed3 m.calories ++ "."

/-- `Training.show_training_info`: builds an `InfoMessage` from the class
name, the stored duration and the three computed metrics; any arithmetic
fault in the metrics propagates. -/
def Training.show_training_info (t : Training) : Option InfoMessage :=
  t.get_mean_speed.bind fun s =>
    t.get_spent_calories.map fun c =>
      { training_type := t.className
        duration := t.duration
        distance := t.get_distance
        speed := s
        calories := c }

/-- Failure modes of `read_package`.
`UnknownActivityKind code` models the `ValueError` the source raises for a
code outside its table, carrying the offending code string.
`ConstructionFault` models the generic `TypeError` from calling a variant
constructor with the wrong number of positional arguments.
`InvalidArguments kind expected got` is modelled from the spec: the named
arity error the spec asks an implementer to add; the source never produces
it (it is present only so that statements can speak about it). -/
inductive DispatchError : Type
  | UnknownActivityKind (code : String)
  | ConstructionFault
  | InvalidArguments (kind : String) (expected got : ℕ)
deriving DecidableEq

/-- `read_package`: looks the code up in the
`{'SWM': Swimming, 'RUN': Running, 'WLK': SportsWalking}` table and calls
the selected constructor with `*data`; an argument list whose length does
not match the constructor's positional parameters raises a generic
`TypeError` (`ConstructionFault`); a code outside the table raises
`ValueError` (`UnknownActivityKind`). -/
def read_package (workout_type : String) (data : List ℚ) :
    Except DispatchError Training :=
  if workout_type = "SWM" then
    match data with
    | [a, d, w, lp, cp] => .ok (.swimming a d w lp cp)
    | _ => .error .ConstructionFault
  else if workout_type = "RUN" then
    match data with
    | [a, d, w] => .ok (.running a d w)
    | _ => .error .ConstructionFault
  else if workout_type = "WLK" then
    match data with
    | [a, d, w, h] => .ok (.sportsWalking a d w h)
    | _ => .error .ConstructionFault
  else
    .error (.UnknownActivityKind workout_type)

/-- The summary template as the spec words it (English labels), for the
refinement claim about `get_message`. -/
def specMessage (m : InfoMessage) : String :=
  "Workout type: " ++ m.training_type ++
  "; Duration: " ++ formatFixed3 m.duration ++
  " h; Distance: " ++ formatFixed3 m.distance ++
  " km; Avg. speed: " ++ formatFixed3 m.speed ++
  " km/h; Calories burned: " ++ formatFixed3 m.calories ++ "."

/-- The summary template amended to the source's actual labels. -/
def specMessageRu (m : InfoMessage) : String :=
  "Тип тренировки: " ++ m.training_type ++
  "; Длительность: " ++ formatFixed3 m.duration ++
  " ч.; Дистанция: " ++ formatFixed3 m.distance ++
  " км; Ср. скорость: " ++ formatFixed3 m.speed ++
  " км/ч; Потрачено ккал: " ++ formatFixed3 m.calories ++ "."

/-- C1: for every activity variant and every action count, `get_distance`
returns `action * step_length / 1000`, with step length 0.65 for Running
and SportsWalking and 1.38 for Swimming. -/
theorem C1_distance_formula (a d w h lp cp : ℚ) :
    Training.get_distance (.running a d w) = a * 0.65 / 1000 ∧
    Training.get_distance (.sportsWalking a d w h) = a * 0.65 / 1000 ∧
    Training.get_distance (.swimming a d w lp cp) = a * 1.38 / 1000 :=
  ⟨rfl, rfl, rfl⟩

/-- C2: for Running and SportsWalking with positive duration, the mean
speed is `get_distance / duration`; for Swimming it is instead
`length_pool * count_pool / 1000 / duration`, ignoring the step-based
distance. -/
theorem C2_mean_speed (a d w h lp cp : ℚ) (hd : 0 < d) :
    Training.get_mean_speed (.running a d w) =
      some (Training.get_distance (.running a d w) / d) ∧
    Training.get_mean_speed (.sportsWalking a d w h) =
      some (Training.get_distance (.sportsWalking a d w h) / d) ∧
    Training.get_mean_speed (.swimming a d w lp cp) =
      some (lp * cp / 1000 / d) := by
  refine ⟨?_, ?_, ?_⟩ <;>
    simp [Training.get_mean_speed, Training.duration, M_IN_KM, hd.ne']

/-- Witness for C2 at Running(15000, 1, 75), Walking height 180 and
Swimming pool 25 × 40. -/
theorem C2_mean_speed_witness :
    Training.get_mean_speed (.running 15000 1 75) =
      some (Training.get_distance (.running 15000 1 75) / 1) ∧
    Training.get_mean_speed (.sportsWalking 15000 1 75 180) =
      some (Training.get_distance (.sportsWalking 15000 1 75 180) / 1) ∧
    Training.get_mean_speed (.swimming 15000 1 75 25 40) =
      some (25 * 40 / 1000 / 1) :=
  C2_mean_speed 15000 1 75 180 25 40 (by norm_num)

/-- C3 counterexample: Running(15000, 1, 75) spends 699.75 kcal, which
renders as "699.750" at three decimals, not "692.325" as claimed. -/
theorem C3_running_counterexample :
    Training.get_spent_calories (.running 15000 1 75) = some 699.75 ∧
    formatFixed3 699.75 = "699.750" ∧ "699.750" ≠ "692.325" := by
  refine ⟨?_, ?_, by decide⟩
  · norm_num [Training.get_spent_calories, Training.get_mean_speed,
      Training.get_distance, Training.action, Training.duration,
      Training.LEN_STEP, M_IN_KM, M_IN_HOURS, COEFF_FOR_RUN_1, COEFF_FOR_RUN_2]
  · norm_num [formatFixed3, roundHalfEven]
    rfl

/-- C3 amended: for every Running activity with positive duration the
calories are `(18 * mean_speed - 20) * weight / 1000 * (duration * 60)`;
at Running(15000, 1, 75) the distance and speed are 9.75 and the calories
are 699.75, rendering as "699.750" at three decimals. -/
theorem C3_running_calories :
    (∀ a d w : ℚ, 0 < d →
      Training.get_spent_calories (.running a d w) =
        some ((18 * (Training.get_distance (.running a d w) / d) - 20) *
          w / 1000 * (d * 60))) ∧
    Training.get_distance (.running 15000 1 75) = 9.75 ∧
    Training.get_mean_speed (.running 15000 1 75) = some 9.75 ∧
    Training.get_spent_calories (.running 15000 1 75) = some 699.75 ∧
    formatFixed3 699.75 = "699.750" := by
  refine ⟨fun a d w hd => ?_, ?_, ?_, ?_, ?_⟩
  · simp [Training.get_spent_calories, Training.get_mean_speed,
      Training.duration, hd.ne', M_IN_KM, M_IN_HOURS,
      COEFF_FOR_RUN_1, COEFF_FOR_RUN_2]
  · norm_num [Training.get_distance, Training.action, Training.LEN_STEP, M_IN_KM]
  · norm_num [Training.get_mean_speed, Training.get_distance, Training.action,
      Training.duration, Training.LEN_STEP, M_IN_KM]
  · norm_num [Training.get_spent_calories, Training.get_mean_speed,
      Training.get_distance, Training.action, Training.duration,
      Training.LEN_STEP, M_IN_KM, M_IN_HOURS, COEFF_FOR_RUN_1, COEFF_FOR_RUN_2]
  · norm_num [formatFixed3, roundHalfEven]
    rfl

/-- Witness for C3 at Running(15000, 1, 75). -/
theorem C3_running_calories_witness :
    Training.get_spent_calories (.running 15000 1 75) =
      some ((18 * (Training.get_distance (.running 15000 1 75) / 1) - 20) *
        75 / 1000 * (1 * 60)) :=
  C3_running_calories.1 15000 1 75 (by norm_num)

/-- C4: for every SportsWalking activity with positive duration and
height, the calories are
`(0.035 * weight + floor((mean_speed)^2 / height) * 0.029 * weight) *
(duration * 60)`, where the inner division is Python's float floor
division (floor toward negative infinity), not ordinary division; at
Walking(9000, 1, 75, 180) the distance and speed are 5.85 and the
calories are 157.5, rendering as "157.500". -/
theorem C4_walking_calories :
    (∀ a d w hh : ℚ, 0 < d → 0 < hh →
      Training.get_spent_calories (.sportsWalking a d w hh) =
        some ((0.035 * w +
          ((⌊(Training.get_distance (.sportsWalking a d w hh) / d) ^ 2 / hh⌋ : ℤ) : ℚ) *
            0.029 * w) * (d * 60))) ∧
    Training.get_distance (.sportsWalking 9000 1 75 180) = 5.85 ∧
    Training.get_mean_speed (.sportsWalking 9000 1 75 180) = some 5.85 ∧
    Training.get_spent_calories (.sportsWalking 9000 1 75 180) = some 157.5 ∧
    formatFixed3 157.5 = "157.500" := by
  refine ⟨fun a d w hh hd hhh => ?_, ?_, ?_, ?_, ?_⟩
  · simp [Training.get_spent_calories, Training.get_mean_speed,
      Training.duration, hd.ne', hhh.ne', ffloorDiv, M_IN_KM, M_IN_HOURS,
      COEFF_FOR_WALK_1, COEFF_FOR_WALK_2]
  · norm_num [Training.get_distance, Training.action, Training.LEN_STEP, M_IN_KM]
  · norm_num [Training.get_mean_speed, Training.get_distance, Training.action,
      Training.duration, Training.LEN_STEP, M_IN_KM]
  · norm_num [Training.get_spent_calories, Training.get_mean_speed,
      Training.get_distance, Training.action, Training.duration,
      Training.LEN_STEP, M_IN_KM, M_IN_HOURS, ffloorDiv,
      COEFF_FOR_WALK_1, COEFF_FOR_WALK_2]
  · norm_num [formatFixed3, roundHalfEven]
    rfl

/-- Witness for C4 at Walking(9000, 1, 75, 180). -/
theorem C4_walking_calories_witness :
    Training.get_spent_calories (.sportsWalking 9000 1 75 180) =
      some ((0.035 * 75 +
        ((⌊(Training.get_distance (.sportsWalking 9000 1 75 180) / 1) ^ 2 / 180⌋ : ℤ) : ℚ) *
          0.029 * 75) * (1 * 60)) :=
  C4_walking_calories.1 9000 1 75 180 (by norm_num) (by norm_num)

/-- C5: every Swimming activity spends `(mean_speed + 1.1) * 2 * weight`
kcal (propagating any mean-speed fault); Swimming(720, 1, 80, 25, 40) has
distance 0.9936 (→ "0.994"), mean speed 1 (→ "1.000") and calories 336
(→ "336.000"). -/
theorem C5_swimming_calories :
    (∀ a d w lp cp : ℚ,
      Training.get_spent_calories (.swimming a d w lp cp) =
        (Training.get_mean_speed (.swimming a d w lp cp)).map
          fun v => (v + 1.1) * 2 * w) ∧
    Training.get_distance (.swimming 720 1 80 25 40) = 0.9936 ∧
    formatFixed3 0.9936 = "0.994" ∧
    Training.get_mean_speed (.swimming 720 1 80 25 40) = some 1 ∧
    formatFixed3 1 = "1.000" ∧
    Training.get_spent_calories (.swimming 720 1 80 25 40) = some 336 ∧
    formatFixed3 336 = "336.000" := by
  refine ⟨fun a d w lp cp => rfl, ?_, ?_, ?_, ?_, ?_, ?_⟩
  · norm_num [Training.get_distance, Training.action, Training.LEN_STEP, M_IN_KM]
  · norm_num [formatFixed3, roundHalfEven]
    rfl
  · norm_num [Training.get_mean_speed, M_IN_KM]
  · norm_num [formatFixed3, roundHalfEven]
    rfl
  · norm_num [Training.get_spent_calories, Training.get_mean_speed, M_IN_KM,
      COEFF_FOR_SWIM_1, COEFF_FOR_SWIM_2]
  · norm_num [formatFixed3, roundHalfEven]
    rfl

/-- C6 counterexample: on a concrete result record, `get_message` does not
produce the English "Workout type: ..." template the claim asks for (the
source's labels are Russian). -/
theorem C6_message_counterexample :
    InfoMessage.get_message
        { training_type := "Running", duration := 1, distance := 9.75,
          speed := 9.75, calories := 699.75 } ≠
      specMessage
        { training_type := "Running", duration := 1, distance := 9.75,
          speed := 9.75, calories := 699.75 } := by
  norm_num [InfoMessage.get_message, specMessage, formatFixed3, roundHalfEven]
  decide

/-- C6 amended: for every result record, `get_message` returns the
single-line template with the source's Russian labels — "Тип тренировки:
{kind}; Длительность: {duration:.3f} ч.; Дистанция: {distance:.3f} км;
Ср. скорость: {speed:.3f} км/ч; Потрачено ккал: {calories:.3f}." — with
that field order, each numeric field at exactly three decimals with a dot
separator and no thousands separators. -/
theorem C6_message_format (m : InfoMessage) :
    InfoMessage.get_message m = specMessageRu m := rfl

/-- C7: a workout-type code outside SWM, RUN, WLK makes `read_package`
fail with the unknown-kind error carrying the offending code, building no
activity. -/
theorem C7_unknown_code (code : String) (data : List ℚ)
    (h1 : code ≠ "SWM") (h2 : code ≠ "RUN") (h3 : code ≠ "WLK") :
    read_package code data = .error (.UnknownActivityKind code) := by
  simp [read_package, h1, h2, h3]

/-- Witness for C7 at the code "FOO". -/
theorem C7_unknown_code_witness :
    read_package "FOO" [720, 1, 80] = .error (.UnknownActivityKind "FOO") :=
  C7_unknown_code "FOO" [720, 1, 80] (by decide) (by decide) (by decide)

/-- C8 counterexample: "RUN" with only two arguments makes `read_package`
fail with the generic construction fault (Python's `TypeError` from the
constructor call), not with an `InvalidArguments` error naming the kind
and the expected and actual counts. -/
theorem C8_arity_counterexample :
    read_package "RUN" [15000, 1] = .error .ConstructionFault ∧
    read_package "RUN" [15000, 1] ≠ .error (.InvalidArguments "RUN" 3 2) := by
  refine ⟨rfl, ?_⟩
  intro h
  simp [read_package] at h

/-- C8 amended: for every recognized type code given an argument list of
the wrong length (SWM: 5, RUN: 3, WLK: 4), `read_package` fails with the
generic unchecked construction fault, building no activity variant; no
named `InvalidArguments` error exists in the source. -/
theorem C8_arity_generic_fault (data : List ℚ) :
    (data.length ≠ 5 → read_package "SWM" data = .error .ConstructionFault) ∧
    (data.length ≠ 3 → read_package "RUN" data = .error .ConstructionFault) ∧
    (data.length ≠ 4 → read_package "WLK" data = .error .ConstructionFault) := by
  rcases data with _ | ⟨a, _ | ⟨b, _ | ⟨c, _ | ⟨d, _ | ⟨e, _ | ⟨f, tl⟩⟩⟩⟩⟩⟩ <;>
    refine ⟨fun h => ?_, fun h => ?_, fun h => ?_⟩ <;>
    first
      | rfl
      | simp at h

/-- Witness for C8 at "RUN" with a two-element argument list. -/
theorem C8_arity_generic_fault_witness :
    read_package "RUN" [720, 1] = .error .ConstructionFault :=
  (C8_arity_generic_fault [720, 1]).2.1 (by decide)

/-- C9: a SportsWalking activity with zero height (and positive duration)
makes the calorie computation hit floor division by zero, a fault rather
than any numeric value. -/
theorem C9_walking_height_zero (a d w : ℚ) (hd : 0 < d) :
    Training.get_spent_calories (.sportsWalking a d w 0) = none := by
  simp [Training.get_spent_calories, Training.get_mean_speed,
    Training.duration, hd.ne', ffloorDiv]

/-- Witness for C9 at Walking(9000, 1, 75) with height 0. -/
theorem C9_walking_height_zero_witness :
    Training.get_spent_calories (.sportsWalking 9000 1 75 0) = none :=
  C9_walking_height_zero 9000 1 75 (by norm_num)

/-- C10: the dispatcher's codes map to class-name labels "SportsWalking"
(for WLK), "Running" (RUN) and "Swimming" (SWM), and `show_training_info`
places exactly the class name into the summary's `training_type` field. -/
theorem C10_kind_labels :
    (∀ a d w h : ℚ,
      (read_package "WLK" [a, d, w, h]).map Training.className =
        .ok "SportsWalking") ∧
    (∀ a d w : ℚ,
      (read_package "RUN" [a, d, w]).map Training.className = .ok "Running") ∧
    (∀ a d w lp cp : ℚ,
      (read_package "SWM" [a, d, w, lp, cp]).map Training.className =
        .ok "Swimming") ∧
    (∀ (t : Training) (msg : InfoMessage),
      t.show_training_info = some msg → msg.training_type = t.className) := by
  refine ⟨fun a d w h => rfl, fun a d w => rfl, fun a d w lp cp => rfl,
    fun t msg hmsg => ?_⟩
  unfold Training.show_training_info at hmsg
  rcases hs : t.get_mean_speed with _ | s <;> rw [hs] at hmsg
  · simp at hmsg
  · rcases hc : t.get_spent_calories with _ | c <;> rw [hc] at hmsg
    · simp at hmsg
    · simp only [Option.some_bind, Option.map_some'] at hmsg
      injection hmsg with h
      rw [← h]

/-- Witness for C10: the summary of Running(15000, 1, 75) carries the
label "Running". -/
theorem C10_kind_labels_witness :
    InfoMessage.training_type
        { training_type := "Running", duration := 1, distance := 9.75,
          speed := 9.75, calories := 699.75 } =
      Training.className (.running 15000 1 75) :=
  C10_kind_labels.2.2.2 (.running 15000 1 75)
    { training_type := "Running", duration := 1, distance := 9.75,
      speed := 9.75, calories := 699.75 }
    (by norm_num [Training.show_training_info, Training.get_spent_calories,
      Training.get_mean_speed, Training.get_distance, Training.action,
      Training.duration, Training.LEN_STEP, Training.className,
      M_IN_KM, M_IN_HOURS, COEFF_FOR_RUN_1, COEFF_FOR_RUN_2])
